import Mathlib

/-!
Shallow embedding of the sopel-climacell plugin
(`src/sopel_climacell/plugin.py`): the lookup tables, the response
formatter `_parse_data` with its helpers (`_get_value_format`,
`get_wind`, `_get_temp_color`), the field sorting performed in
`get_weather`, and the reply-splitting logic of the `weather` command.

Modelling conventions:
 - Python numbers (JSON ints and floats) are modelled as exact
   rationals; Python's builtin `round` (banker's rounding) is modelled
   exactly on rationals.
 - The string constants are copied code point for code point from the
   checked-in source file (which stores the emoji in a mojibake form,
   e.g. `"ðŸŒ§ï¸ Rain"` for the rain
   description); non-ASCII code points are written with `\u` escapes.
 - Functions from the `sopel` host framework used by the plugin
   (`bold`, `color`, the `colors` constants, `f_to_c`, `c_to_f`) are
   external collaborators; they are modelled from their documented
   behavior.
 - `Template("{pfx}{field} $value$units").safe_substitute` followed by
   `.format(...)` and the final `.replace("$units", "")` is modelled as
   string concatenation, which is exact for values that contain none of
   the `Template`/`format` metacharacters.
-/

namespace Climacell

/-- sopel.formatting.bold (host framework): wraps text in the IRC bold
control code `\x02` on both sides. -/
def bold (t : String) : String := "\x02" ++ t ++ "\x02"

/-- sopel.formatting.color (host framework): control code `\x03`, the
foreground color code, the text, and a closing `\x03`. -/
def color (t : String) (fg : String) : String := "\x03" ++ fg ++ t ++ "\x03"

namespace colors

/-- sopel.formatting.colors constants (host framework): mIRC color codes. -/
def LIGHT_BLUE : String := "12"

def TEAL : String := "10"

def BLUE : String := "02"

def LIGHT_GREEN : String := "09"

def GREEN : String := "03"

def YELLOW : String := "08"

def ORANGE : String := "07"

def RED : String := "04"

end colors

/-- sopel.modules.units.f_to_c (host framework): standard
Fahrenheit-to-Celsius conversion. -/
def f_to_c (temp : ℚ) : ℚ := (temp - 32) * 5 / 9

/-- sopel.modules.units.c_to_f (host framework): standard
Celsius-to-Fahrenheit conversion. -/
def c_to_f (temp : ℚ) : ℚ := temp * 9 / 5 + 32

/-- Python's builtin `round` to the nearest integer, ties to even
(banker's rounding), on exact rationals. -/
def pyRound (x : ℚ) : ℤ :=
  if x - ⌊x⌋ < 1/2 then ⌊x⌋
  else if 1/2 < x - ⌊x⌋ then ⌊x⌋ + 1
  else if ⌊x⌋ % 2 = 0 then ⌊x⌋ else ⌊x⌋ + 1

/-- Python's `round(x, 1)` expressed in integer tenths:
`round(x, 1) = pyRound1 x / 10`. -/
def pyRound1 (x : ℚ) : ℤ := pyRound (x * 10)

/-- Python's `round(x, 2)` expressed in integer hundredths:
`round(x, 2) = pyRound2 x / 100`. -/
def pyRound2 (x : ℚ) : ℤ := pyRound (x * 100)

/-- Rendering of a Python int by `"{}".format`. -/
def intStr (n : ℤ) : String := toString n

/-- Rendering by `"{}".format` of a float that is an exact multiple of
one tenth, given as integer tenths (e.g. `211 ↦ "21.1"`, `-380 ↦ "-38.0"`). -/
def dec1Str (t : ℤ) : String :=
  (if t < 0 then "-" else "") ++ toString (t.natAbs / 10) ++ "." ++ toString (t.natAbs % 10)

/-- Rendering by `"{:.2f}".format` of a float that is an exact multiple
of one hundredth, given as integer hundredths (always two digits after
the point). -/
def dec2Str (t : ℤ) : String :=
  (if t < 0 then "-" else "") ++ toString (t.natAbs / 100) ++ "." ++
    (if t.natAbs % 100 < 10 then "0" else "") ++ toString (t.natAbs % 100)

/-- JSON scalar values as they reach the formatter: null, a number, or
a string. -/
inductive PyVal
  | none
  | num (q : ℚ)
  | str (s : String)
deriving DecidableEq

/-- Python `str()` of a JSON number, modelled on exact rationals:
integers print without a decimal point, terminating decimals print with
their shortest exact decimal expansion (Python float repr artifacts are
outside the rational model). -/
def pyNumStr (q : ℚ) : String :=
  if q.den = 1 then toString q.num
  else
    match (List.range 18).find? (fun k => (q * (10 : ℚ) ^ k).den = 1) with
    | some k =>
      let t := (q * (10 : ℚ) ^ k).num
      let frac := toString (t.natAbs % 10 ^ k)
      (if t < 0 then "-" else "") ++ toString (t.natAbs / 10 ^ k) ++ "." ++
        String.mk (List.replicate (k - frac.length) '0') ++ frac
    | none => toString q.num ++ "/" ++ toString q.den

/-- Python `str()` of a value (as applied by `Template.safe_substitute`). -/
def pyStr : PyVal → String
  | .none => "None"
  | .num q => pyNumStr q
  | .str s => s

/-- Python truthiness test `not value` on an optional JSON scalar
(a missing key behaves like `None`). -/
def pyFalsy : Option PyVal → Bool
  | Option.none => true
  | some .none => true
  | some (.num q) => q == 0
  | some (.str s) => s == ""

/-- One entry of the weather API response: the optional `value` key and
the optional `units` key of a field's map. -/
structure FieldData where
  value : Option PyVal
  units : Option String
deriving DecidableEq

/-- Errors a formatter step can raise: a dict lookup miss (`KeyError`)
or an operation on a value of the wrong type (`TypeError`). -/
inductive PyErr
  | keyError (k : String)
  | typeError
deriving DecidableEq

/-- WEATHER_CODE_DESCRIPTIONS from plugin.py, code point for code point
(the checked-in file stores the emoji in mojibake form). -/
def WEATHER_CODE_DESCRIPTIONS : List (String × String) :=
  [("rain_heavy", "ðŸŒ§ï¸ Substantial rain"),
   ("rain", "ðŸŒ§ï¸ Rain"),
   ("rain_light", "ðŸŒ§ï¸ Light rain"),
   ("freezing_rain_heavy",
     "ðŸ§ŠðŸŒ§ï¸ Substantial freezing rain"),
   ("freezing_rain",
     "ðŸ§ŠðŸŒ§ï¸ Freezing rain"),
   ("freezing_rain_light",
     "ðŸ§ŠðŸŒ§ï¸ Light freezing rain"),
   ("freezing_drizzle",
     "ðŸ§ŠðŸŒ§ï¸ Light freezing rain falling in fine pieces"),
   ("drizzle", "ðŸŒ¦ï¸ Drizzle"),
   ("ice_pellets_heavy", "ðŸ§Š Substantial ice pellets"),
   ("ice_pellets", "ðŸ§Š Ice pellets"),
   ("ice_pellets_light", "ðŸ§Š Light ice pellets"),
   ("snow_heavy", "â„ï¸ Substantial snow"),
   ("snow", "â„ï¸ Snow"),
   ("snow_light", "â„ï¸ Light snow"),
   ("flurries", "â„ï¸ Flurries"),
   ("tstorm", "ðŸŒ©ï¸ Thunderstorm conditions"),
   ("fog_light", "ðŸŒ Light fog"),
   ("fog", "ðŸŒ Fog"),
   ("cloudy", "â˜ï¸ Cloudy"),
   ("mostly_cloudy", "ðŸŒ¥ï¸ Mostly cloudy"),
   ("partly_cloudy", "â›… Partly cloudy"),
   ("mostly_clear", "ðŸŒ¤ï¸ Mostly clear"),
   ("clear", "â˜€ï¸ Clear")]

/-- MAPPED_FIELDS from plugin.py: bold display labels per field name
(the `moon_phase` label contains the mojibake of a zero-width space). -/
def MAPPED_FIELDS : List (String × String) :=
  [("weather_code", bold "Conditions:"),
   ("feels_like", bold "Feels Like:"),
   ("dewpoint", bold "Dewpoint:"),
   ("humidity", bold "Humidity:"),
   ("wind_speed", bold "Wind Speed:"),
   ("wind_direction", bold "Wind Direction:"),
   ("wind_gust", bold "Wind Gust:"),
   ("baro_pressure", bold "Pressure:"),
   ("precipitation", bold "Precipitation:"),
   ("precipitation_type", bold "Precipitation:"),
   ("sunrise", bold "Sunrise:"),
   ("sunset", bold "Sunset:"),
   ("visibility", bold "Visibility:"),
   ("cloud_cover", bold "Cloud Cover:"),
   ("cloud_base", bold "Cloud Base:"),
   ("cloud_ceiling", bold "Cloud Ceiling:"),
   ("surface_shortwave_radiation", bold "Solar Radiation:"),
   ("moon_phase", bold "Moon Pâ€‹hase:"),
   ("epa_health_concern", bold "Air Quality:")]

/-- MAPPED_FIELDS.get(key, "") from plugin.py. -/
def labelOf (key : String) : String := (MAPPED_FIELDS.lookup key).getD ""

/-- SORTED_FIELDS from plugin.py: display priority rank per field name. -/
def SORTED_FIELDS : List (String × Nat) :=
  [("weather_code", 3),
   ("temp", 1),
   ("feels_like", 2),
   ("dewpoint", 7),
   ("humidity", 6),
   ("wind_speed", 8),
   ("wind_direction", 10),
   ("wind_gust", 9),
   ("baro_pressure", 11),
   ("precipitation", 5),
   ("precipitation_type", 4),
   ("sunrise", 12),
   ("sunset", 13),
   ("visibility", 14),
   ("cloud_cover", 15),
   ("cloud_base", 16),
   ("cloud_ceiling", 17),
   ("surface_shortwave_radiation", 18),
   ("moon_phase", 19),
   ("epa_health_concern", 20)]

/-- moon_phases table from `_get_value_format` in plugin.py. -/
def moon_phases : List (String × String) :=
  [("new", "ðŸŒ‘ new moon"),
   ("new_moon", "ðŸŒ‘ new moon"),
   ("waxing_crescent", "ðŸŒ’ waxing crescent (1/4 full)"),
   ("first_quarter", "ðŸŒ“ half moon (first quarter)"),
   ("waxing_gibbous", "ðŸŒ” waxing gibbous (3/4 full)"),
   ("full", "ðŸŒ• full moon"),
   ("waning_gibbous", "ðŸŒ– waning gibbous (3/4 full)"),
   ("third_quarter", "ðŸŒ— half moon (last quarter)"),
   ("last_quarter", "ðŸŒ— half moon (last quarter)"),
   ("waning_crescent", "ðŸŒ˜ waning crescent (1/4 full)")]

/-- _get_temp_color from plugin.py: the temperature-to-color scale keyed
on a Fahrenheit value. -/
def _get_temp_color (f : ℚ) : String :=
  if f < 10 then colors.LIGHT_BLUE
  else if f < 32 then colors.TEAL
  else if f < 50 then colors.BLUE
  else if f < 60 then colors.LIGHT_GREEN
  else if f < 70 then colors.GREEN
  else if f < 80 then colors.YELLOW
  else if f < 90 then colors.ORANGE
  else colors.RED

/-- get_wind from plugin.py: the if/elif chain over the bearing; when no
branch matches (impossible for a rational bearing) the numeric bearing
falls through unchanged. -/
def get_wind (bearing : ℚ) : PyVal :=
  if bearing ≤ 22.5 ∨ bearing > 337.5 then .str "↓ N"
  else if bearing > 22.5 ∧ bearing ≤ 67.5 then .str "↙ NE"
  else if bearing > 67.5 ∧ bearing ≤ 112.5 then .str "← E"
  else if bearing > 112.5 ∧ bearing ≤ 157.5 then .str "↖ SE"
  else if bearing > 157.5 ∧ bearing ≤ 202.5 then .str "↑ S"
  else if bearing > 202.5 ∧ bearing ≤ 247.5 then .str "↗ SW"
  else if bearing > 247.5 ∧ bearing ≤ 292.5 then .str "→ W"
  else if bearing > 292.5 ∧ bearing ≤ 337.5 then .str "↘ NW"
  else .num bearing

/-- Fahrenheit branch of `_parse_data`: both numbers are colorized with
the color of the Fahrenheit value; the source writes the degree sign in
mojibake form (`Â°`). -/
def formatTempF (q : ℚ) : String :=
  color (intStr (pyRound q)) (_get_temp_color q) ++ "Â°F/" ++
    color (dec1Str (pyRound1 (f_to_c q))) (_get_temp_color q) ++ "Â°C"

/-- Celsius branch of `_parse_data`: the color is keyed on the
Fahrenheit equivalent. -/
def formatTempC (q : ℚ) : String :=
  color (dec1Str (pyRound1 q)) (_get_temp_color (c_to_f q)) ++ "Â°C/" ++
    color (intStr (pyRound (c_to_f q))) (_get_temp_color (c_to_f q)) ++ "Â°F"

/-- _get_value_format from plugin.py: the per-field formats dict
(`round_int` for humidity / wind_speed / wind_gust / visibility /
surface_shortwave_radiation, `round_decimal` for baro_pressure,
`moonphases` for moon_phase, `stringify` otherwise). A `round` applied
to a non-number raises TypeError; a moon-phase table miss raises
KeyError. -/
def _get_value_format (value : PyVal) (field : String) : Except PyErr String :=
  if field = "humidity" ∨ field = "wind_speed" ∨ field = "wind_gust" ∨
      field = "visibility" ∨ field = "surface_shortwave_radiation" then
    match value with
    | .num q => .ok (intStr (pyRound q))
    | _ => .error .typeError
  else if field = "baro_pressure" then
    match value with
    | .num q => .ok (dec2Str (pyRound2 q))
    | _ => .error .typeError
  else if field = "moon_phase" then
    match value with
    | .str s =>
      match moon_phases.lookup s with
      | some m => .ok m
      | Option.none => .error (.keyError s)
    | w => .error (.keyError (pyStr w))
  else .ok (pyStr value)

/-- weather_code step of the `_parse_data` loop body: replace the value
by the table description (`WEATHER_CODE_DESCRIPTIONS[values['value']]`
raises KeyError on a miss), dropping the units key; other fields pass
through unchanged. -/
def weatherCodeStep (key : String) (v : PyVal) (units : Option String) :
    Except PyErr (PyVal × Option String) :=
  if key = "weather_code" then
    match v with
    | .str c =>
      match WEATHER_CODE_DESCRIPTIONS.lookup c with
      | some d => .ok (.str d, Option.none)
      | Option.none => .error (.keyError c)
    | w => .error (.keyError (pyStr w))
  else .ok (v, units)

/-- units step of the `_parse_data` loop body: entered only when the
units entry is present and truthy; `"F"` and `"C"` fold the colorized
temperature pair into the value and drop the units key (`round` on a
non-number raises TypeError); any other unit leaves the map unchanged,
units included. -/
def unitsStep (vu : PyVal × Option String) : Except PyErr (PyVal × Option String) :=
  match vu.2 with
  | some u =>
    if u = "" then .ok vu
    else if u = "F" then
      match vu.1 with
      | .num q => .ok (.str (formatTempF q), Option.none)
      | _ => .error .typeError
    else if u = "C" then
      match vu.1 with
      | .num q => .ok (.str (formatTempC q), Option.none)
      | _ => .error .typeError
    else .ok vu
  | Option.none => .ok vu

/-- wind_direction step of the `_parse_data` loop body: replaces the map
by `get_wind` of the original value (comparing a non-number with the
sector bounds raises TypeError). -/
def windStep (key : String) (orig : PyVal) (vu : PyVal × Option String) :
    Except PyErr (PyVal × Option String) :=
  if key = "wind_direction" then
    match orig with
    | .num b => .ok (get_wind b, Option.none)
    | _ => .error .typeError
  else .ok vu

/-- sunrise/sunset step of the `_parse_data` loop body: replaces the map
by the parsed time of the original value; `parseTime` stands for
`_parse_time(value, timezone)` (pendulum, an external collaborator). -/
def sunStep (parseTime : PyVal → String) (key : String) (orig : PyVal)
    (vu : PyVal × Option String) : PyVal × Option String :=
  if key = "sunrise" ∨ key = "sunset" then (.str (parseTime orig), Option.none)
  else vu

/-- try/except step of the `_parse_data` loop body: on success the value
is replaced by the formatted string, on any exception the map is left
unchanged (`except: pass`). -/
def valueFormatStep (key : String) (vu : PyVal × Option String) :
    PyVal × Option String :=
  match _get_value_format vu.1 key with
  | .ok s => (.str s, vu.2)
  | .error _ => vu

/-- One iteration of the `_parse_data` loop for one field: `.ok none`
when the field is skipped, `.ok (some segment)` with the rendered
segment (without the `" | "` separator), `.error` when an uncaught
exception aborts `_parse_data`. The final segment is the label, a
space, the stringified value, and the leftover units substitution (the
trailing `.replace("$units", "")` erases the placeholder when the units
key is gone). -/
def processField (parseTime : PyVal → String) (key : String) (values : FieldData) :
    Except PyErr (Option String) :=
  if key = "lat" ∨ key = "lon" ∨ key = "observation_time" then .ok Option.none
  else if pyFalsy values.value = true ∨ values.value = some (.str "none") then
    .ok Option.none
  else
    match values.value with
    | Option.none => .ok Option.none
    | some v =>
      match weatherCodeStep key v values.units with
      | .error e => .error e
      | .ok vu₁ =>
        match unitsStep vu₁ with
        | .error e => .error e
        | .ok vu₂ =>
          match windStep key v vu₂ with
          | .error e => .error e
          | .ok vu₃ =>
            let vu₅ := valueFormatStep key (sunStep parseTime key v vu₃)
            .ok (some (labelOf key ++ " " ++ pyStr vu₅.1 ++ vu₅.2.getD ""))

/-- Segments of the surviving fields, in order; the first uncaught
exception aborts the whole parse. -/
def fieldSegments (parseTime : PyVal → String) :
    List (String × FieldData) → Except PyErr (List String)
  | [] => .ok []
  | (k, v) :: rest =>
    match processField parseTime k v with
    | .error e => .error e
    | .ok Option.none => fieldSegments parseTime rest
    | .ok (some s) =>
      match fieldSegments parseTime rest with
      | .error e => .error e
      | .ok tail => .ok (s :: tail)

/-- Python `" | ".join`, as produced by the `_parse_data` accumulation
loop (no separator before the first emitted field). -/
def joinPipe : List String → String
  | [] => ""
  | [s] => s
  | s :: ss => s ++ " | " ++ joinPipe ss

/-- _parse_data from plugin.py: the ordered field map to the joined
segment string. -/
def _parse_data (parseTime : PyVal → String) (data : List (String × FieldData)) :
    Except PyErr String :=
  match fieldSegments parseTime data with
  | .error e => .error e
  | .ok segs => .ok (joinPipe segs)

/-- Effective sort rank built in `get_weather`: the SORTED_FIELDS rank
when present and truthy, else 999. -/
def sortKey (k : String) : Nat :=
  match SORTED_FIELDS.lookup k with
  | some r => if r = 0 then 999 else r
  | Option.none => 999

/-- Python `sorted(data, key=lambda x: sort_keys[x])` from get_weather:
`sorted` is a stable sort by the effective rank, and any stable sort by
a fixed key produces the same list, so it is modelled by stable
insertion sort in rank order (an element is inserted before the first
element of larger-or-equal rank, so earlier input elements stay before
later equal-rank ones). -/
def pySortFields (data : List (String × FieldData)) : List (String × FieldData) :=
  data.insertionSort (fun a b => sortKey a.1 ≤ sortKey b.1)

instance : IsTotal (String × FieldData) (fun a b => sortKey a.1 ≤ sortKey b.1) :=
  ⟨fun _ _ => Nat.le_total _ _⟩

instance : IsTrans (String × FieldData) (fun a b => sortKey a.1 ≤ sortKey b.1) :=
  ⟨fun _ _ _ => Nat.le_trans⟩

/-- get_weather from plugin.py after the HTTP fetch: sort the response
fields by rank, parse them, and wrap with the bold location and the
attribution suffix. -/
def get_weather (parseTime : PyVal → String) (location : String)
    (data : List (String × FieldData)) : Except PyErr String :=
  match _parse_data parseTime (pySortFields data) with
  | .error e => .error e
  | .ok s =>
    .ok (bold ("[" ++ location ++ "]") ++ " " ++ s ++
      " | Powered by ClimaCell API (https://www.climacell.co/weather-api)")

/-- Python `str.isprintable` for one character, modelled over the
Unicode General Category data of the code point ranges this plugin can
emit (ASCII, the C0/C1 control blocks used by the IRC formatting codes,
the Latin-1 and general-punctuation separator/format characters, the
BMP symbols and astral emoji, which are printable). Unassigned and
private-use code points are treated as printable. -/
def pyPrintable (c : Char) : Bool :=
  let n := c.toNat
  !(n < 0x20 || (0x7f ≤ n && n ≤ 0xa0) || n == 0xad || n == 0x1680 ||
    (0x2000 ≤ n && n ≤ 0x200f) || n == 0x2028 || n == 0x2029 ||
    (0x202a ≤ n && n ≤ 0x202f) || (0x205f ≤ n && n ≤ 0x2064) ||
    (0x2066 ≤ n && n ≤ 0x206f) || n == 0x3000 || n == 0xfeff)

/-- Length contributed by one character to Python's `repr` of a string,
given the chosen quote character: escaped quote/backslash and the
`\t`/`\n`/`\r` escapes take 2 characters, other non-printable
characters take a `\xXX`, `\uXXXX` or `\UXXXXXXXX` escape, printable
characters stand for themselves. -/
def pyCharReprLen (quote : Char) (c : Char) : Nat :=
  if c = quote ∨ c = '\\' then 2
  else if c = '\t' ∨ c = '\n' ∨ c = '\x0d' then 2
  else if pyPrintable c then 1
  else if c.toNat < 0x100 then 4
  else if c.toNat < 0x10000 then 6
  else 10

/-- Quote character Python's `repr` picks for a string: a double quote
when the string contains a single quote but no double quote, else a
single quote. -/
def pyReprQuote (s : String) : Char :=
  if s.data.contains '\'' && !(s.data.contains '"') then '"' else '\''

/-- Length of Python's `repr` of a string: the two quotes plus the
per-character contributions. -/
def pyReprLen (s : String) : Nat :=
  2 + (s.data.map (pyCharReprLen (pyReprQuote s))).sum

/-- Python `reply.split(' | ')` on the character list: split on each
non-overlapping occurrence of the three-character separator, scanning
left to right. -/
def pySplitPipe : List Char → List (List Char)
  | ' ' :: '|' :: ' ' :: rest => [] :: pySplitPipe rest
  | c :: cs =>
    match pySplitPipe cs with
    | [] => [[c]]
    | p :: ps => (c :: p) :: ps
  | [] => [[]]

/-- Tail of the `weather` command after the reply is rendered: when
`len(repr(reply))` exceeds 475 the `" | "`-separated parts are split at
the midpoint part count (integer division) and sent as two `bot.say`
calls, else the reply is sent as a single `bot.say` call. -/
def weatherSay (reply : String) : List String :=
  if 475 < pyReprLen reply then
    let parts := (pySplitPipe reply.data).map String.mk
    let div := parts.length / 2
    [joinPipe (parts.take div), joinPipe (parts.drop div)]
  else [reply]

/-- Characterization of `get_wind` on each sector, used by the C2
theorems. -/
theorem get_wind_cases (b : ℚ) :
    ((b ≤ 22.5 ∨ 337.5 < b) → get_wind b = .str "↓ N") ∧
    (22.5 < b ∧ b ≤ 67.5 → get_wind b = .str "↙ NE") ∧
    (67.5 < b ∧ b ≤ 112.5 → get_wind b = .str "← E") ∧
    (112.5 < b ∧ b ≤ 157.5 → get_wind b = .str "↖ SE") ∧
    (157.5 < b ∧ b ≤ 202.5 → get_wind b = .str "↑ S") ∧
    (202.5 < b ∧ b ≤ 247.5 → get_wind b = .str "↗ SW") ∧
    (247.5 < b ∧ b ≤ 292.5 → get_wind b = .str "→ W") ∧
    (292.5 < b ∧ b ≤ 337.5 → get_wind b = .str "↘ NW") := by
  refine ⟨?_, ?_, ?_, ?_, ?_, ?_, ?_, ?_⟩
  · intro h
    unfold get_wind
    rw [if_pos h]
  all_goals
    intro h
    obtain ⟨h1, h2⟩ := h
    unfold get_wind
  · rw [if_neg (not_or.mpr ⟨by linarith, by linarith⟩), if_pos ⟨h1, h2⟩]
  · rw [if_neg (not_or.mpr ⟨by linarith, by linarith⟩),
      if_neg (fun hc => absurd hc.2 (by push_neg; linarith)), if_pos ⟨h1, h2⟩]
  · rw [if_neg (not_or.mpr ⟨by linarith, by linarith⟩),
      if_neg (fun hc => absurd hc.2 (by push_neg; linarith)),
      if_neg (fun hc => absurd hc.2 (by push_neg; linarith)), if_pos ⟨h1, h2⟩]
  · rw [if_neg (not_or.mpr ⟨by linarith, by linarith⟩),
      if_neg (fun hc => absurd hc.2 (by push_neg; linarith)),
      if_neg (fun hc => absurd hc.2 (by push_neg; linarith)),
      if_neg (fun hc => absurd hc.2 (by push_neg; linarith)), if_pos ⟨h1, h2⟩]
  · rw [if_neg (not_or.mpr ⟨by linarith, by linarith⟩),
      if_neg (fun hc => absurd hc.2 (by push_neg; linarith)),
      if_neg (fun hc => absurd hc.2 (by push_neg; linarith)),
      if_neg (fun hc => absurd hc.2 (by push_neg; linarith)),
      if_neg (fun hc => absurd hc.2 (by push_neg; linarith)), if_pos ⟨h1, h2⟩]
  · rw [if_neg (not_or.mpr ⟨by linarith, by linarith⟩),
      if_neg (fun hc => absurd hc.2 (by push_neg; linarith)),
      if_neg (fun hc => absurd hc.2 (by push_neg; linarith)),
      if_neg (fun hc => absurd hc.2 (by push_neg; linarith)),
      if_neg (fun hc => absurd hc.2 (by push_neg; linarith)),
      if_neg (fun hc => absurd hc.2 (by push_neg; linarith)), if_pos ⟨h1, h2⟩]
  · rw [if_neg (not_or.mpr ⟨by linarith, by linarith⟩),
      if_neg (fun hc => absurd hc.2 (by push_neg; linarith)),
      if_neg (fun hc => absurd hc.2 (by push_neg; linarith)),
      if_neg (fun hc => absurd hc.2 (by push_neg; linarith)),
      if_neg (fun hc => absurd hc.2 (by push_neg; linarith)),
      if_neg (fun hc => absurd hc.2 (by push_neg; linarith)),
      if_neg (fun hc => absurd hc.2 (by push_neg; linarith)), if_pos ⟨h1, h2⟩]

/-- C2 (counterexample): a bearing of exactly 337.5 degrees is rendered
as the NW sector arrow, not as the claimed north arrow: the first guard
of `get_wind` requires `bearing > 337.5` strictly, so 337.5 is the
inclusive upper bound of NW's sector, not of N's wraparound sector. -/
theorem get_wind_337_5_counterexample :
    get_wind (337.5 : ℚ) = .str "↘ NW" ∧ get_wind (337.5 : ℚ) ≠ .str "↓ N" := by
  have h : get_wind (337.5 : ℚ) = .str "↘ NW" :=
    (get_wind_cases (337.5 : ℚ)).2.2.2.2.2.2.2 (by constructor <;> norm_num)
  refine ⟨h, ?_⟩
  rw [h]
  decide

/-- C2 (amended): the wind-direction mapping partitions bearings into
eight 45-degree sectors with half-open `(lower, upper]` boundaries:
bearing 0 maps to "↓ N", bearing 45 maps to "↙ NE", and bearing exactly
337.5 maps to "↘ NW" — N's wraparound sector is `(337.5, ∞) ∪ (-∞, 22.5]`
and excludes 337.5, which is instead the inclusive upper bound of NW's
sector. -/
theorem get_wind_sectors (b : ℚ) :
    get_wind 0 = .str "↓ N" ∧ get_wind 45 = .str "↙ NE" ∧
    get_wind (337.5 : ℚ) = .str "↘ NW" ∧
    ((b ≤ 22.5 ∨ 337.5 < b) → get_wind b = .str "↓ N") ∧
    (22.5 < b ∧ b ≤ 67.5 → get_wind b = .str "↙ NE") ∧
    (67.5 < b ∧ b ≤ 112.5 → get_wind b = .str "← E") ∧
    (112.5 < b ∧ b ≤ 157.5 → get_wind b = .str "↖ SE") ∧
    (157.5 < b ∧ b ≤ 202.5 → get_wind b = .str "↑ S") ∧
    (202.5 < b ∧ b ≤ 247.5 → get_wind b = .str "↗ SW") ∧
    (247.5 < b ∧ b ≤ 292.5 → get_wind b = .str "→ W") ∧
    (292.5 < b ∧ b ≤ 337.5 → get_wind b = .str "↘ NW") := by
  obtain ⟨c1, c2, c3, c4, c5, c6, c7, c8⟩ := get_wind_cases b
  exact ⟨(get_wind_cases 0).1 (Or.inl (by norm_num)),
    (get_wind_cases 45).2.1 (by constructor <;> norm_num),
    (get_wind_cases (337.5 : ℚ)).2.2.2.2.2.2.2 (by constructor <;> norm_num),
    c1, c2, c3, c4, c5, c6, c7, c8⟩

/-- C2 (witness): the sector implications of `get_wind_sectors`
instantiated at concrete bearings. -/
theorem get_wind_sectors_witness :
    get_wind 45 = .str "↙ NE" ∧ get_wind 180 = .str "↑ S" :=
  ⟨(get_wind_sectors 45).2.2.2.2.1 (by constructor <;> norm_num),
   (get_wind_sectors 180).2.2.2.2.2.2.2.1 (by constructor <;> norm_num)⟩

/-- Characterization of `_get_temp_color` on each band, used by the C3
theorems. -/
theorem temp_color_cases (f : ℚ) :
    (f < 10 → _get_temp_color f = colors.LIGHT_BLUE) ∧
    (10 ≤ f ∧ f < 32 → _get_temp_color f = colors.TEAL) ∧
    (32 ≤ f ∧ f < 50 → _get_temp_color f = colors.BLUE) ∧
    (50 ≤ f ∧ f < 60 → _get_temp_color f = colors.LIGHT_GREEN) ∧
    (60 ≤ f ∧ f < 70 → _get_temp_color f = colors.GREEN) ∧
    (70 ≤ f ∧ f < 80 → _get_temp_color f = colors.YELLOW) ∧
    (80 ≤ f ∧ f < 90 → _get_temp_color f = colors.ORANGE) ∧
    (90 ≤ f → _get_temp_color f = colors.RED) := by
  refine ⟨?_, ?_, ?_, ?_, ?_, ?_, ?_, ?_⟩
  · intro h
    unfold _get_temp_color
    rw [if_pos h]
  · intro ⟨h1, h2⟩
    unfold _get_temp_color
    rw [if_neg (not_lt.mpr h1), if_pos h2]
  · intro ⟨h1, h2⟩
    unfold _get_temp_color
    rw [if_neg (not_lt.mpr (by linarith)), if_neg (not_lt.mpr h1), if_pos h2]
  · intro ⟨h1, h2⟩
    unfold _get_temp_color
    rw [if_neg (not_lt.mpr (by linarith)), if_neg (not_lt.mpr (by linarith)),
      if_neg (not_lt.mpr h1), if_pos h2]
  · intro ⟨h1, h2⟩
    unfold _get_temp_color
    rw [if_neg (not_lt.mpr (by linarith)), if_neg (not_lt.mpr (by linarith)),
      if_neg (not_lt.mpr (by linarith)), if_neg (not_lt.mpr h1), if_pos h2]
  · intro ⟨h1, h2⟩
    unfold _get_temp_color
    rw [if_neg (not_lt.mpr (by linarith)), if_neg (not_lt.mpr (by linarith)),
      if_neg (not_lt.mpr (by linarith)), if_neg (not_lt.mpr (by linarith)),
      if_neg (not_lt.mpr h1), if_pos h2]
  · intro ⟨h1, h2⟩
    unfold _get_temp_color
    rw [if_neg (not_lt.mpr (by linarith)), if_neg (not_lt.mpr (by linarith)),
      if_neg (not_lt.mpr (by linarith)), if_neg (not_lt.mpr (by linarith)),
      if_neg (not_lt.mpr (by linarith)), if_neg (not_lt.mpr h1), if_pos h2]
  · intro h
    unfold _get_temp_color
    rw [if_neg (not_lt.mpr (by linarith)), if_neg (not_lt.mpr (by linarith)),
      if_neg (not_lt.mpr (by linarith)), if_neg (not_lt.mpr (by linarith)),
      if_neg (not_lt.mpr (by linarith)), if_neg (not_lt.mpr (by linarith)),
      if_neg (not_lt.mpr h)]

/-- C3 (confirmed): the temperature color scale has eight pairwise
distinct colors with strictly-less-than band boundaries at
10, 32, 50, 60, 70, 80, 90 Fahrenheit; exactly 10 falls in the `<32`
band (TEAL) and exactly 32 falls in the `<50` band (BLUE), not TEAL. -/
theorem temp_color_scale (f : ℚ) :
    _get_temp_color 10 = colors.TEAL ∧
    _get_temp_color 32 = colors.BLUE ∧ colors.BLUE ≠ colors.TEAL ∧
    [colors.LIGHT_BLUE, colors.TEAL, colors.BLUE, colors.LIGHT_GREEN,
      colors.GREEN, colors.YELLOW, colors.ORANGE, colors.RED].Nodup ∧
    (f < 10 → _get_temp_color f = colors.LIGHT_BLUE) ∧
    (10 ≤ f ∧ f < 32 → _get_temp_color f = colors.TEAL) ∧
    (32 ≤ f ∧ f < 50 → _get_temp_color f = colors.BLUE) ∧
    (50 ≤ f ∧ f < 60 → _get_temp_color f = colors.LIGHT_GREEN) ∧
    (60 ≤ f ∧ f < 70 → _get_temp_color f = colors.GREEN) ∧
    (70 ≤ f ∧ f < 80 → _get_temp_color f = colors.YELLOW) ∧
    (80 ≤ f ∧ f < 90 → _get_temp_color f = colors.ORANGE) ∧
    (90 ≤ f → _get_temp_color f = colors.RED) := by
  obtain ⟨c1, c2, c3, c4, c5, c6, c7, c8⟩ := temp_color_cases f
  exact ⟨(temp_color_cases 10).2.1 (by constructor <;> norm_num),
    (temp_color_cases 32).2.2.1 (by constructor <;> norm_num),
    by decide, by decide, c1, c2, c3, c4, c5, c6, c7, c8⟩

/-- Any field whose value fails the `_parse_data` truthiness/none guard
contributes no segment and leaves the parse of the remaining fields
unchanged. -/
theorem processField_drop (pt : PyVal → String) (key : String) (u : Option String)
    (v : Option PyVal) (rest : List (String × FieldData))
    (hv : pyFalsy v = true ∨ v = some (.str "none")) :
    processField pt key ⟨v, u⟩ = .ok Option.none ∧
    _parse_data pt ((key, ⟨v, u⟩) :: rest) = _parse_data pt rest := by
  have hpf : processField pt key ⟨v, u⟩ = .ok Option.none := by
    unfold processField
    dsimp only
    by_cases hk : key = "lat" ∨ key = "lon" ∨ key = "observation_time"
    · rw [if_pos hk]
    · rw [if_neg hk, if_pos hv]
  have hfs : fieldSegments pt ((key, ⟨v, u⟩) :: rest) = fieldSegments pt rest := by
    simp only [fieldSegments, hpf]
  refine ⟨hpf, ?_⟩
  unfold _parse_data
  rw [hfs]

/-- C7 (confirmed): a field whose `value` key is missing, null, or the
literal string "none" contributes nothing to the output regardless of
its other attributes: it produces no segment, and the parse of the
remaining fields is exactly the parse without it. -/
theorem drop_missing_null_none (pt : PyVal → String) (key : String)
    (u : Option String) (rest : List (String × FieldData)) :
    processField pt key ⟨Option.none, u⟩ = .ok Option.none ∧
    processField pt key ⟨some .none, u⟩ = .ok Option.none ∧
    processField pt key ⟨some (.str "none"), u⟩ = .ok Option.none ∧
    _parse_data pt ((key, ⟨Option.none, u⟩) :: rest) = _parse_data pt rest ∧
    _parse_data pt ((key, ⟨some .none, u⟩) :: rest) = _parse_data pt rest ∧
    _parse_data pt ((key, ⟨some (.str "none"), u⟩) :: rest) = _parse_data pt rest := by
  obtain ⟨h1, h4⟩ := processField_drop pt key u Option.none rest (Or.inl rfl)
  obtain ⟨h2, h5⟩ := processField_drop pt key u (some .none) rest (Or.inl rfl)
  obtain ⟨h3, h6⟩ := processField_drop pt key u (some (.str "none")) rest (Or.inr rfl)
  exact ⟨h1, h2, h3, h4, h5, h6⟩

/-- C10 (confirmed): the guard `if not value_map.get('value')` drops
every falsy value, not only missing/null/"none": a field whose numeric
value is exactly 0 or whose value is the empty string never appears in
the output, for any field name and units. -/
theorem drop_falsy_zero_empty (pt : PyVal → String) (key : String)
    (u : Option String) (rest : List (String × FieldData)) :
    processField pt key ⟨some (.num 0), u⟩ = .ok Option.none ∧
    processField pt key ⟨some (.str ""), u⟩ = .ok Option.none ∧
    _parse_data pt ((key, ⟨some (.num 0), u⟩) :: rest) = _parse_data pt rest ∧
    _parse_data pt ((key, ⟨some (.str ""), u⟩) :: rest) = _parse_data pt rest := by
  obtain ⟨h1, h3⟩ := processField_drop pt key u (some (.num 0)) rest (Or.inl (by decide))
  obtain ⟨h2, h4⟩ := processField_drop pt key u (some (.str "")) rest (Or.inl rfl)
  exact ⟨h1, h2, h3, h4⟩

/-- Unfolding of `processField` for a field that is not skipped: the
key is none of the unconditionally skipped ones and the value is truthy
and not the literal "none". -/
theorem processField_open (pt : PyVal → String) (key : String) (u : Option String)
    (v : PyVal) (hk : ¬(key = "lat" ∨ key = "lon" ∨ key = "observation_time"))
    (hf : pyFalsy (some v) = false) (hn : v ≠ .str "none") :
    processField pt key ⟨some v, u⟩ =
      match weatherCodeStep key v u with
      | .error e => .error e
      | .ok vu₁ =>
        match unitsStep vu₁ with
        | .error e => .error e
        | .ok vu₂ =>
          match windStep key v vu₂ with
          | .error e => .error e
          | .ok vu₃ =>
            let vu₅ := valueFormatStep key (sunStep pt key v vu₃)
            .ok (some (labelOf key ++ " " ++ pyStr vu₅.1 ++ vu₅.2.getD "")) := by
  unfold processField
  dsimp only
  rw [if_neg hk, if_neg ?_]
  rintro (hc | hc)
  · rw [hf] at hc
    exact Bool.false_ne_true hc
  · exact hn (Option.some.inj hc)

/-- C1 (counterexample): the weather-code description table has 23
distinct codes, not the claimed 22. -/
theorem weather_code_count_counterexample :
    WEATHER_CODE_DESCRIPTIONS.length = 23 ∧
    WEATHER_CODE_DESCRIPTIONS.length ≠ 22 ∧
    (WEATHER_CODE_DESCRIPTIONS.map Prod.fst).Nodup := by
  refine ⟨rfl, by decide, by decide⟩

/-- C1 (amended): the weather-code description table contains exactly 23
distinct known codes; for every code in the table, a `weather_code`
field carrying that code renders as the bold Conditions label followed
by the exact mapped description, and for any truthy code not in the
table the lookup raises a KeyError that aborts the parse instead of
rendering a value. -/
theorem weather_code_lookup (pt : PyVal → String) (u : Option String) :
    WEATHER_CODE_DESCRIPTIONS.length = 23 ∧
    (WEATHER_CODE_DESCRIPTIONS.map Prod.fst).Nodup ∧
    (∀ c d, WEATHER_CODE_DESCRIPTIONS.lookup c = some d → c ≠ "" → c ≠ "none" →
      processField pt "weather_code" ⟨some (.str c), u⟩ =
        .ok (some (bold "Conditions:" ++ " " ++ d))) ∧
    (∀ c, WEATHER_CODE_DESCRIPTIONS.lookup c = Option.none → c ≠ "" → c ≠ "none" →
      processField pt "weather_code" ⟨some (.str c), u⟩ = .error (.keyError c)) := by
  refine ⟨rfl, by decide, ?_, ?_⟩
  · intro c d h hc hn
    rw [processField_open pt "weather_code" u (.str c) (by decide)
      (beq_eq_false_iff_ne.mpr hc)
      (fun he => hn (PyVal.str.inj he))]
    unfold weatherCodeStep
    rw [if_pos rfl]
    dsimp only
    rw [h]
    show Except.ok (some (labelOf "weather_code" ++ " " ++ d ++ "")) = _
    rw [String.append_empty]
    rfl
  · intro c h hc hn
    rw [processField_open pt "weather_code" u (.str c) (by decide)
      (beq_eq_false_iff_ne.mpr hc)
      (fun he => hn (PyVal.str.inj he))]
    unfold weatherCodeStep
    rw [if_pos rfl]
    dsimp only
    rw [h]

/-- C1 (witness): the table lookup behavior instantiated at the known
code "clear" and the unknown code "asdf". -/
theorem weather_code_lookup_witness :
    processField (fun _ => "") "weather_code" ⟨some (.str "clear"), Option.none⟩ =
      .ok (some (bold "Conditions:" ++ " " ++
        "â˜€ï¸ Clear")) ∧
    processField (fun _ => "") "weather_code" ⟨some (.str "asdf"), Option.none⟩ =
      .error (.keyError "asdf") :=
  ⟨(weather_code_lookup (fun _ => "") Option.none).2.2.1 "clear"
      "â˜€ï¸ Clear" rfl (by decide) (by decide),
   (weather_code_lookup (fun _ => "") Option.none).2.2.2 "asdf" rfl
      (by decide) (by decide)⟩

/-- The units step leaves a map with a unit other than "F" and "C"
completely unchanged, units key included. -/
theorem unitsStep_other (v : PyVal) (u : String) (h1 : u ≠ "F") (h2 : u ≠ "C") :
    unitsStep (v, some u) = .ok (v, some u) := by
  unfold unitsStep
  dsimp only
  by_cases h0 : u = ""
  · rw [if_pos h0]
  · rw [if_neg h0, if_neg h1, if_neg h2]

/-- The units step folds a Fahrenheit number into the colorized pair
and discards the units key. -/
theorem unitsStep_F (q : ℚ) :
    unitsStep (.num q, some "F") = .ok (.str (formatTempF q), Option.none) := rfl

/-- The try/except format step never touches the units entry. -/
theorem valueFormatStep_snd (key : String) (vu : PyVal × Option String) :
    (valueFormatStep key vu).2 = vu.2 := by
  unfold valueFormatStep
  cases _get_value_format vu.1 key <;> rfl

/-- A string whose first character is the color control code is not a
key of the moon-phase table. -/
theorem moon_phases_lookup_of_head (s : String) (h : s.data.head? = some '\x03') :
    moon_phases.lookup s = Option.none := by
  have hne : ∀ t : String, t.data.head? ≠ some '\x03' → (s == t) = false := by
    intro t ht
    apply beq_eq_false_iff_ne.mpr
    rintro rfl
    exact ht h
  simp only [moon_phases, List.lookup]
  rw [hne "new" (by decide), hne "new_moon" (by decide),
    hne "waxing_crescent" (by decide), hne "first_quarter" (by decide),
    hne "waxing_gibbous" (by decide), hne "full" (by decide),
    hne "waning_gibbous" (by decide), hne "third_quarter" (by decide),
    hne "last_quarter" (by decide), hne "waning_crescent" (by decide)]

/-- The colorized Fahrenheit pair starts with the color control code. -/
theorem formatTempF_head (q : ℚ) : (formatTempF q).data.head? = some '\x03' := by
  unfold formatTempF color
  have h3 : ("\x03" : String).data = ['\x03'] := rfl
  simp [String.data_append, h3]

/-- On a string value that is not a moon-phase key, the try/except
format step is the identity: the round-based formats raise TypeError on
a string, the moon-phase lookup raises KeyError, and stringify returns
the string itself. -/
theorem valueFormatStep_str (key : String) (s : String) (u : Option String)
    (hm : moon_phases.lookup s = Option.none) :
    valueFormatStep key (.str s, u) = (.str s, u) := by
  unfold valueFormatStep _get_value_format
  by_cases h1 : key = "humidity" ∨ key = "wind_speed" ∨ key = "wind_gust" ∨
      key = "visibility" ∨ key = "surface_shortwave_radiation"
  · rw [if_pos h1]
  · rw [if_neg h1]
    by_cases h2 : key = "baro_pressure"
    · rw [if_pos h2]
    · rw [if_neg h2]
      by_cases h3 : key = "moon_phase"
      · rw [if_pos h3]
        dsimp only
        rw [hm]
      · rw [if_neg h3]
        rfl

/-- General form of a rendered segment for an ordinary field: the key
is none of the specially treated ones, the value is truthy and not
"none", and the units entry (if present) is neither "F" nor "C"; the
segment is the label, a space, the formatted value, and the units
appended verbatim when present. -/
theorem processField_general (pt : PyVal → String) (key : String) (v : PyVal)
    (u : Option String)
    (hk : ¬(key = "lat" ∨ key = "lon" ∨ key = "observation_time"))
    (hw : key ≠ "weather_code") (hd : key ≠ "wind_direction")
    (hs : ¬(key = "sunrise" ∨ key = "sunset"))
    (hu : ∀ x, u = some x → x ≠ "F" ∧ x ≠ "C")
    (hf : pyFalsy (some v) = false) (hn : v ≠ .str "none") :
    processField pt key ⟨some v, u⟩ =
      .ok (some (labelOf key ++ " " ++
        pyStr (valueFormatStep key (v, u)).1 ++ u.getD "")) := by
  rw [processField_open pt key u v hk hf hn]
  unfold weatherCodeStep
  rw [if_neg hw]
  have hu' : unitsStep (v, u) = .ok (v, u) := by
    match u with
    | Option.none => rfl
    | some x => exact unitsStep_other v x (hu x rfl).1 (hu x rfl).2
  dsimp only
  rw [hu']
  dsimp only
  unfold windStep
  rw [if_neg hd]
  try dsimp only
  unfold sunStep
  rw [if_neg hs]
  try dsimp only
  rw [valueFormatStep_snd]

/-- Rendering of a `moon_phase` field: a known phase name renders as
the mapped description, an unknown phase name renders as-is because the
KeyError from the table lookup is swallowed by the try/except around
`_get_value_format`. -/
theorem processField_moon (pt : PyVal → String) (p : String)
    (hp : p ≠ "") (hn : p ≠ "none") :
    (∀ m, moon_phases.lookup p = some m →
      processField pt "moon_phase" ⟨some (.str p), Option.none⟩ =
        .ok (some (labelOf "moon_phase" ++ " " ++ m))) ∧
    (moon_phases.lookup p = Option.none →
      processField pt "moon_phase" ⟨some (.str p), Option.none⟩ =
        .ok (some (labelOf "moon_phase" ++ " " ++ p))) := by
  have base := processField_general pt "moon_phase" (.str p) Option.none
    (by decide) (by decide) (by decide) (by decide)
    (fun x hx => by cases hx)
    (beq_eq_false_iff_ne.mpr hp)
    (fun he => hn (PyVal.str.inj he))
  constructor
  · intro m hm
    rw [base]
    have hv : valueFormatStep "moon_phase" (.str p, Option.none) = (.str m, Option.none) := by
      unfold valueFormatStep _get_value_format
      rw [if_neg (by decide), if_neg (by decide), if_pos rfl]
      dsimp only
      rw [hm]
    rw [hv]
    show Except.ok (some (labelOf "moon_phase" ++ " " ++ m ++ "")) = _
    rw [String.append_empty]
  · intro hm
    rw [base, valueFormatStep_str _ _ _ hm]
    show Except.ok (some (labelOf "moon_phase" ++ " " ++ p ++ "")) = _
    rw [String.append_empty]

/-- C5 (counterexample): an unknown moon-phase value does not raise an
error failing the command: the KeyError is caught by the bare
`except: pass` around `_get_value_format`, and the raw phase name is
rendered as-is in the output. -/
theorem moon_phase_unknown_counterexample :
    processField (fun _ => "") "moon_phase" ⟨some (.str "blood"), Option.none⟩ =
      .ok (some (bold "Moon Pâ€‹hase:" ++ " " ++ "blood")) :=
  (processField_moon (fun _ => "") "blood" (by decide) (by decide)).2 (by decide)

/-- C5 (amended): the moon-phase table has exactly 10 phase names, each
rendering as its exact mapped description; a `moon_phase` value not in
the table does NOT fail the command: the KeyError raised by the table
lookup is swallowed by the try/except around `_get_value_format` and
the raw value is rendered as-is. -/
theorem moon_phase_render (pt : PyVal → String) :
    moon_phases.length = 10 ∧
    (∀ p m, moon_phases.lookup p = some m → p ≠ "" → p ≠ "none" →
      processField pt "moon_phase" ⟨some (.str p), Option.none⟩ =
        .ok (some (bold "Moon Pâ€‹hase:" ++ " " ++ m))) ∧
    (∀ p, moon_phases.lookup p = Option.none → p ≠ "" → p ≠ "none" →
      processField pt "moon_phase" ⟨some (.str p), Option.none⟩ =
        .ok (some (bold "Moon Pâ€‹hase:" ++ " " ++ p))) :=
  ⟨rfl,
   fun p m hm hp hn => (processField_moon pt p hp hn).1 m hm,
   fun p hm hp hn => (processField_moon pt p hp hn).2 hm⟩

/-- C5 (witness): the moon-phase rendering instantiated at the known
phase "full" and the unknown phase "waxing". -/
theorem moon_phase_render_witness :
    processField (fun _ => "") "moon_phase" ⟨some (.str "full"), Option.none⟩ =
      .ok (some (bold "Moon Pâ€‹hase:" ++ " " ++
        "ðŸŒ• full moon")) ∧
    processField (fun _ => "") "moon_phase" ⟨some (.str "waxing"), Option.none⟩ =
      .ok (some (bold "Moon Pâ€‹hase:" ++ " " ++ "waxing")) :=
  ⟨(moon_phase_render (fun _ => "")).2.1 "full" _ rfl (by decide) (by decide),
   (moon_phase_render (fun _ => "")).2.2 "waxing" (by decide) (by decide) (by decide)⟩

/-- C6 (counterexample): for a unit-carrying field whose unit is not a
temperature unit the raw unit string IS appended after the value: a
humidity of 45 with units "%" renders as the bold label, a space, "45",
and the raw "%" suffix. -/
theorem units_suffix_counterexample :
    processField (fun _ => "") "humidity" ⟨some (.num 45), some "%"⟩ =
      .ok (some (bold "Humidity:" ++ " " ++ "45" ++ "%")) ∧
    (bold "Humidity:" ++ " " ++ "45" ++ "%").data.getLast? = some '%' := by
  have hfloor : ⌊(45 : ℚ)⌋ = 45 := by norm_num
  have h45 : pyRound (45 : ℚ) = 45 := by
    unfold pyRound
    rw [hfloor, if_pos (by push_cast; norm_num)]
  have hv : valueFormatStep "humidity" (.num 45, some "%") = (.str "45", some "%") := by
    unfold valueFormatStep _get_value_format
    rw [if_pos (Or.inl rfl)]
    dsimp only
    rw [h45]
    rfl
  have base := processField_general (fun _ => "") "humidity" (.num 45) (some "%")
    (by decide) (by decide) (by decide) (by decide)
    (fun x hx => by
      rw [Option.some.injEq] at hx
      subst hx
      exact ⟨by decide, by decide⟩)
    (beq_eq_false_iff_ne.mpr (by norm_num))
    (fun he => by cases he)
  rw [base, hv]
  exact ⟨rfl, by decide⟩

/-- C6 (amended): a rendered segment is the bold field label (empty for
fields absent from the label table), a space, and the formatted value —
but the unit suffix is NOT always dropped: for any field (other than the
specially transformed weather_code / wind_direction / sunrise / sunset)
carrying a unit other than "F" and "C", the raw unit string is appended
verbatim after the value; only the temperature units "F"/"C" are folded
into the value string and never re-appended. -/
theorem field_units_suffix (pt : PyVal → String) (key : String) (v : PyVal) (u : String)
    (hk : ¬(key = "lat" ∨ key = "lon" ∨ key = "observation_time"))
    (hw : key ≠ "weather_code") (hd : key ≠ "wind_direction")
    (hs : ¬(key = "sunrise" ∨ key = "sunset"))
    (hu1 : u ≠ "F") (hu2 : u ≠ "C")
    (hf : pyFalsy (some v) = false) (hn : v ≠ .str "none") :
    processField pt key ⟨some v, some u⟩ =
      .ok (some ((MAPPED_FIELDS.lookup key).getD "" ++ " " ++
        pyStr (valueFormatStep key (v, some u)).1 ++ u)) :=
  processField_general pt key v (some u) hk hw hd hs
    (fun x hx => by
      rw [Option.some.injEq] at hx
      subst hx
      exact ⟨hu1, hu2⟩)
    hf hn

/-- C6 (witness): the general segment shape applied to a dewpoint field
with a non-temperature unit. -/
theorem field_units_suffix_witness :
    processField (fun _ => "") "dewpoint" ⟨some (.str "low"), some "idx"⟩ =
      .ok (some ((MAPPED_FIELDS.lookup "dewpoint").getD "" ++ " " ++
        pyStr (valueFormatStep "dewpoint" (.str "low", some "idx")).1 ++ "idx")) :=
  field_units_suffix (fun _ => "") "dewpoint" (.str "low") "idx"
    (by decide) (by decide) (by decide) (by decide) (by decide) (by decide)
    rfl (by decide)

/-- C9 (confirmed): a field with unit "F" and numeric value q renders as
the label followed by the colorized pair: q rounded to the nearest
integer (banker's rounding) with the degree-F tag, then the Celsius
value computed as (q - 32) * 5 / 9 rounded to one decimal place with the
degree-C tag, both colored by the Fahrenheit temperature color. -/
theorem temp_f_roundtrip (pt : PyVal → String) (key : String) (q : ℚ)
    (hk : ¬(key = "lat" ∨ key = "lon" ∨ key = "observation_time"))
    (hw : key ≠ "weather_code") (hd : key ≠ "wind_direction")
    (hs : ¬(key = "sunrise" ∨ key = "sunset"))
    (hq : q ≠ 0) :
    processField pt key ⟨some (.num q), some "F"⟩ =
      .ok (some (labelOf key ++ " " ++ formatTempF q)) ∧
    formatTempF q =
      color (intStr (pyRound q)) (_get_temp_color q) ++ "Â°F/" ++
        color (dec1Str (pyRound ((q - 32) * 5 / 9 * 10))) (_get_temp_color q) ++
        "Â°C" := by
  constructor
  · rw [processField_open pt key (some "F") (.num q) hk
      (beq_eq_false_iff_ne.mpr hq) (fun he => by cases he)]
    unfold weatherCodeStep
    rw [if_neg hw]
    dsimp only
    rw [unitsStep_F]
    dsimp only
    unfold windStep
    rw [if_neg hd]
    try dsimp only
    unfold sunStep
    rw [if_neg hs]
    try dsimp only
    rw [valueFormatStep_str key _ _ (moon_phases_lookup_of_head _ (formatTempF_head q))]
    show Except.ok (some (labelOf key ++ " " ++ formatTempF q ++ "")) = _
    rw [String.append_empty]
  · rfl

/-- C9 (witness): the Fahrenheit rendering applied to a concrete
feels_like field at 70 degrees. -/
theorem temp_f_roundtrip_witness :
    processField (fun _ => "") "feels_like" ⟨some (.num 70), some "F"⟩ =
      .ok (some (labelOf "feels_like" ++ " " ++ formatTempF 70)) :=
  (temp_f_roundtrip (fun _ => "") "feels_like" 70
    (by decide) (by decide) (by decide) (by decide) (by norm_num)).1

/-- C3 (witness): the band implications of `temp_color_scale`
instantiated at concrete temperatures. -/
theorem temp_color_scale_witness :
    _get_temp_color 5 = colors.LIGHT_BLUE ∧ _get_temp_color 95 = colors.RED :=
  ⟨(temp_color_scale 5).2.2.2.2.1 (by norm_num),
   (temp_color_scale 95).2.2.2.2.2.2.2.2.2.2.2 (by norm_num)⟩

/-- A successful association-list lookup returns one of the stored
values. -/
theorem lookup_mem_snd {β : Type} (l : List (String × β)) (k : String) (r : β)
    (h : l.lookup k = some r) : r ∈ l.map Prod.snd := by
  induction l with
  | nil => cases h
  | cons a as ih =>
    unfold List.lookup at h
    cases hbeq : (k == a.1) with
    | true =>
      rw [hbeq] at h
      simp only [Option.some.injEq] at h
      subst h
      exact List.mem_map_of_mem Prod.snd (List.mem_cons_self a as)
    | false =>
      rw [hbeq] at h
      exact List.mem_map.mpr (by
        obtain ⟨p, hp, he⟩ := List.mem_map.mp (ih h)
        exact ⟨p, List.mem_cons_of_mem a hp, he⟩)

/-- Every field present in the rank table has its table rank as
effective sort key, and that rank is positive and below the 999
assigned to unranked fields. -/
theorem sortKey_ranked (k : String) (r : Nat) (h : SORTED_FIELDS.lookup k = some r) :
    sortKey k = r ∧ 0 < r ∧ r < 999 := by
  have hm : r ∈ SORTED_FIELDS.map Prod.snd := lookup_mem_snd _ _ _ h
  have hb : 0 < r ∧ r < 999 := by
    have hall : ∀ v ∈ SORTED_FIELDS.map Prod.snd, 0 < v ∧ v < 999 := by decide
    exact hall r hm
  refine ⟨?_, hb⟩
  unfold sortKey
  rw [h]
  exact if_neg (Nat.pos_iff_ne_zero.mp hb.1)

/-- Filtering one rank class through a stable ordered insert: the
inserted element lands in front of its own rank class and leaves every
other class untouched. -/
theorem filter_orderedInsert_rank (x : String × FieldData) (r : Nat) :
    ∀ l : List (String × FieldData),
      (l.orderedInsert (fun a b => sortKey a.1 ≤ sortKey b.1) x).filter
          (fun z => decide (sortKey z.1 = r)) =
        if sortKey x.1 = r then
          x :: l.filter (fun z => decide (sortKey z.1 = r))
        else l.filter (fun z => decide (sortKey z.1 = r)) := by
  intro l
  induction l with
  | nil =>
    by_cases h : sortKey x.1 = r
    · simp [List.orderedInsert, List.filter, h]
    · simp [List.orderedInsert, List.filter, h]
  | cons y ys ih =>
    unfold List.orderedInsert
    by_cases hxy : sortKey x.1 ≤ sortKey y.1
    · rw [if_pos hxy]
      by_cases h : sortKey x.1 = r
      · simp [List.filter_cons, h]
      · simp [List.filter_cons, h]
    · rw [if_neg hxy]
      by_cases hy : sortKey y.1 = r
      · have hx : sortKey x.1 ≠ r := by omega
        simp [List.filter_cons, hy, hx, ih]
      · simp [List.filter_cons, hy, ih]

/-- Stability of the modelled sort: each rank class of the output is
exactly the rank class of the input, in the original encounter order. -/
theorem filter_pySortFields (data : List (String × FieldData)) (r : Nat) :
    (pySortFields data).filter (fun z => decide (sortKey z.1 = r)) =
      data.filter (fun z => decide (sortKey z.1 = r)) := by
  induction data with
  | nil => rfl
  | cons x xs ih =>
    show ((pySortFields xs).orderedInsert (fun a b => sortKey a.1 ≤ sortKey b.1) x).filter
        (fun z => decide (sortKey z.1 = r)) = _
    rw [filter_orderedInsert_rank]
    by_cases h : sortKey x.1 = r
    · rw [if_pos h, ih, List.filter_cons, if_pos (by simp [h])]
    · rw [if_neg h, ih, List.filter_cons, if_neg (by simp [h])]

/-- C8 (confirmed): the emitted field order is the fixed rank order
regardless of the order fields appear in the response: the sorted list
is a permutation of the input, pairwise ordered by effective rank;
every ranked field keeps its table rank (positive and below 999) while
every absent field gets effective rank 999, so unranked fields sort
after all ranked ones and all share one effective rank; and each rank
class — in particular the unranked class — keeps its original
encounter order (stability). -/
theorem get_weather_field_order (data : List (String × FieldData)) :
    (pySortFields data).Perm data ∧
    (pySortFields data).Pairwise (fun a b => sortKey a.1 ≤ sortKey b.1) ∧
    (∀ r : Nat, (pySortFields data).filter (fun z => decide (sortKey z.1 = r)) =
      data.filter (fun z => decide (sortKey z.1 = r))) ∧
    (∀ k r, SORTED_FIELDS.lookup k = some r → sortKey k = r ∧ 0 < r ∧ r < 999) ∧
    (∀ k, SORTED_FIELDS.lookup k = Option.none → sortKey k = 999) := by
  refine ⟨List.perm_insertionSort _ data,
    List.sorted_insertionSort _ data,
    fun r => filter_pySortFields data r,
    sortKey_ranked, ?_⟩
  intro k h
  unfold sortKey
  rw [h]

/-- C8 (witness): the rank assignments instantiated at a ranked and an
unranked field name. -/
theorem get_weather_field_order_witness :
    sortKey "temp" = 1 ∧ sortKey "zzz" = 999 :=
  ⟨((get_weather_field_order []).2.2.2.1 "temp" 1 rfl).1,
   (get_weather_field_order []).2.2.2.2 "zzz" rfl⟩

set_option maxRecDepth 40000 in
/-- C4 (counterexample): the split threshold is evaluated on
`len(repr(reply))`, not on the rendered length: a reply of 119
characters — far below 475 — whose characters are control codes (as IRC
color/bold codes are) has a repr of length 478 and is therefore emitted
as two `say` calls, refuting the claim that every reply at or under 475
characters is sent as a single call. -/
theorem weather_split_counterexample :
    (String.mk (List.replicate 119 (Char.ofNat 1))).length ≤ 475 ∧
    weatherSay (String.mk (List.replicate 119 (Char.ofNat 1))) =
      ["", String.mk (List.replicate 119 (Char.ofNat 1))] ∧
    (weatherSay (String.mk (List.replicate 119 (Char.ofNat 1)))).length = 2 := by
  refine ⟨by decide, by decide, by decide⟩

/-- C4 (amended): the `weather` command splits on the Python repr
length of the reply, `len(repr(reply)) > 475` (at least the rendered
length plus the two quotes, and strictly more when the reply contains
characters repr escapes, such as the IRC control codes): above the
threshold exactly two `say` calls are emitted, the `" | "`-joined
halves at the midpoint part count with the first half the
smaller-or-equal share and all parts preserved verbatim; at or below
the threshold a single `say` call carries the reply unchanged. -/
theorem weather_reply_split (reply : String) :
    (pyReprLen reply ≤ 475 → weatherSay reply = [reply]) ∧
    (475 < pyReprLen reply →
      ∃ ps₁ ps₂ : List String,
        ps₁ ++ ps₂ = (pySplitPipe reply.data).map String.mk ∧
        ps₁.length ≤ ps₂.length ∧ ps₂.length ≤ ps₁.length + 1 ∧
        weatherSay reply = [joinPipe ps₁, joinPipe ps₂]) := by
  constructor
  · intro h
    unfold weatherSay
    rw [if_neg (not_lt.mpr h)]
  · intro h
    unfold weatherSay
    rw [if_pos h]
    refine ⟨((pySplitPipe reply.data).map String.mk).take
        (((pySplitPipe reply.data).map String.mk).length / 2),
      ((pySplitPipe reply.data).map String.mk).drop
        (((pySplitPipe reply.data).map String.mk).length / 2),
      List.take_append_drop _ _, ?_, ?_, rfl⟩
    · rw [List.length_take, List.length_drop]
      omega
    · rw [List.length_take, List.length_drop]
      omega

/-- C4 (witness): a short reply is sent as a single message. -/
theorem weather_reply_split_witness :
    pyReprLen "ab" ≤ 475 ∧ weatherSay "ab" = ["ab"] :=
  ⟨by decide, (weather_reply_split "ab").1 (by decide)⟩

end Climacell
